import Mathlib

/-
Verification of the trading_ai forecasting core against its specification.

The development shallowly embeds the algorithmic parts of the repository:
the explicit scenario-forecasting formula of the budget-optimization
component, the weekly aggregation and normalization of the calculator
logic, the pacing-curve rescaling, and the job-quality estimator.
Real-number arithmetic of the source (JavaScript doubles) is embedded as
exact real/rational arithmetic; `Math.round` and `toFixed(2)` are embedded
as rounding half toward positive infinity, which is their behaviour on the
values involved.  A JavaScript division that produces a non-finite value
(Infinity/NaN) is embedded as `Option.none` where a claim depends on it.
-/

/-- JavaScript `Math.round x`: the integer nearest to `x`, ties toward
positive infinity, i.e. `⌊x + 1/2⌋`. -/
noncomputable def jsRound (x : ℝ) : ℤ := ⌊x + 1/2⌋

/-- JavaScript `parseFloat(x.toFixed(2))`: `x` rounded to two decimal
places, ties toward positive infinity. -/
noncomputable def jsRound2 (x : ℝ) : ℝ := (jsRound (x * 100) : ℝ) / 100

/-- `Math.round` on rational values, used by the computable parts of the
embedding. -/
def jsRoundQ (q : ℚ) : ℤ := ⌊q + 1/2⌋

noncomputable section

namespace BudgetOptimization

/-- Calibration constant `CLIENT_ACHIEVED_SPEND` from the scenario model. -/
def CLIENT_ACHIEVED_SPEND : ℝ := 65366.24

/-- Calibration constant `CLIENT_ACHIEVED_AS`. -/
def CLIENT_ACHIEVED_AS : ℝ := 11098.0

/-- Calibration constant `CLIENT_BUDGET`. -/
def CLIENT_BUDGET : ℝ := 67416.00

/-- Calibration constant `CLIENT_AS_GOAL_HISTORICAL`. -/
def CLIENT_AS_GOAL_HISTORICAL : ℝ := 13249.0

/-- Calibration constant `CLIENT_DURATION`. -/
def CLIENT_DURATION : ℝ := 30.0

/-- Elasticity exponent `ALPHA` (duration). -/
def ALPHA : ℝ := 0.2

/-- Elasticity exponent `GAMMA` (budget). -/
def GAMMA : ℝ := 0.1

/-- Elasticity exponent `DELTA` (goal). -/
def DELTA : ℝ := 0.1

/-- `CLIENT_ACHIEVED_CPAS = CLIENT_ACHIEVED_SPEND / CLIENT_ACHIEVED_AS`. -/
def CLIENT_ACHIEVED_CPAS : ℝ := CLIENT_ACHIEVED_SPEND / CLIENT_ACHIEVED_AS

/-- `CLIENT_TARGET_CPAS_FOR_RF = CLIENT_BUDGET / CLIENT_AS_GOAL_HISTORICAL`. -/
def CLIENT_TARGET_CPAS_FOR_RF : ℝ := CLIENT_BUDGET / CLIENT_AS_GOAL_HISTORICAL

/-- `RF_STATIC = CLIENT_ACHIEVED_CPAS / CLIENT_TARGET_CPAS_FOR_RF`. -/
def RF_STATIC : ℝ := CLIENT_ACHIEVED_CPAS / CLIENT_TARGET_CPAS_FOR_RF

/-- `BASE_PREDICTED_CPAS_FACTOR = CLIENT_ACHIEVED_CPAS * RF_STATIC`. -/
def BASE_PREDICTED_CPAS_FACTOR : ℝ := CLIENT_ACHIEVED_CPAS * RF_STATIC

/-- The month-indexed seasonality object of the scenario model, with the
`|| 1.0` fallback for months outside the table.  All table values are
nonzero, so the JavaScript truthiness fallback only fires for absent
keys. -/
def seasonality (m : ℕ) : ℝ :=
  if m = 6 then 1.0 else if m = 7 then 1.05 else if m = 8 then 1.10 else
  if m = 9 then 0.95 else if m = 10 then 0.90 else if m = 11 then 0.85 else
  if m = 12 then 0.80 else if m = 1 then 0.90 else if m = 2 then 0.92 else
  if m = 3 then 0.95 else if m = 4 then 0.98 else if m = 5 then 1.00 else 1.0

/-- `DURATION_IMPACT_FACTOR = (CLIENT_DURATION / numDays) ^ ALPHA`. -/
def DURATION_IMPACT_FACTOR (numDays : ℝ) : ℝ := (CLIENT_DURATION / numDays) ^ ALPHA

/-- `BUDGET_SENSITIVITY_FACTOR = (budget / CLIENT_BUDGET) ^ GAMMA`. -/
def BUDGET_SENSITIVITY_FACTOR (budget : ℝ) : ℝ := (budget / CLIENT_BUDGET) ^ GAMMA

/-- `AS_GOAL_SENSITIVITY_FACTOR = (asGoal / CLIENT_AS_GOAL_HISTORICAL) ^ DELTA`. -/
def AS_GOAL_SENSITIVITY_FACTOR (asGoal : ℝ) : ℝ :=
  (asGoal / CLIENT_AS_GOAL_HISTORICAL) ^ DELTA

/-- Placeholder quality factor. -/
def JOB_QUALITY_IMPACT_FACTOR : ℝ := 1.0

/-- `estimatedCPAS`: the explicit multiplicative scenario formula. -/
def estimatedCPAS (budget numDays asGoal : ℝ) (startMonth : ℕ) : ℝ :=
  BASE_PREDICTED_CPAS_FACTOR * DURATION_IMPACT_FACTOR numDays *
    BUDGET_SENSITIVITY_FACTOR budget * AS_GOAL_SENSITIVITY_FACTOR asGoal *
    JOB_QUALITY_IMPACT_FACTOR * seasonality startMonth

/-- `projectedAS = estimatedCPAS > 0 ? budget / estimatedCPAS : 0`. -/
def projectedAS (budget numDays asGoal : ℝ) (startMonth : ℕ) : ℝ :=
  if 0 < estimatedCPAS budget numDays asGoal startMonth then
    budget / estimatedCPAS budget numDays asGoal startMonth
  else 0

end BudgetOptimization

end

open BudgetOptimization in
/-- C1: for the reference calibration and the scenario budget 67416,
duration 30 days, goal 13249, start month June, the scenario formula
yields achievedCPAS ≈ 5.8902, targetCPASForRF ≈ 5.0883,
rfStatic ≈ 1.1576, basePredictedCPAS ≈ 6.818, every sensitivity and
duration factor exactly 1, projectedCPAS ≈ 6.818 and
projectedApplyStarts ≈ 9884; each approximation is verified within 0.1%
relative tolerance of the quoted value. -/
theorem c1_worked_example :
    |CLIENT_ACHIEVED_CPAS - 5.8902| ≤ 0.0059 ∧
    |CLIENT_TARGET_CPAS_FOR_RF - 5.0883| ≤ 0.0051 ∧
    |RF_STATIC - 1.1576| ≤ 0.0012 ∧
    |BASE_PREDICTED_CPAS_FACTOR - 6.818| ≤ 0.0069 ∧
    DURATION_IMPACT_FACTOR 30 = 1 ∧
    BUDGET_SENSITIVITY_FACTOR 67416 = 1 ∧
    AS_GOAL_SENSITIVITY_FACTOR 13249 = 1 ∧
    seasonality 6 = 1 ∧
    estimatedCPAS 67416 30 13249 6 = BASE_PREDICTED_CPAS_FACTOR ∧
    |projectedAS 67416 30 13249 6 - 9884| ≤ 9.884 := by
  have hdur : DURATION_IMPACT_FACTOR 30 = 1 := by
    unfold DURATION_IMPACT_FACTOR CLIENT_DURATION ALPHA
    norm_num
  have hbud : BUDGET_SENSITIVITY_FACTOR 67416 = 1 := by
    unfold BUDGET_SENSITIVITY_FACTOR CLIENT_BUDGET GAMMA
    norm_num
  have hgoal : AS_GOAL_SENSITIVITY_FACTOR 13249 = 1 := by
    unfold AS_GOAL_SENSITIVITY_FACTOR CLIENT_AS_GOAL_HISTORICAL DELTA
    norm_num
  have hseas : seasonality 6 = 1 := by norm_num [seasonality]
  have hest : estimatedCPAS 67416 30 13249 6 = BASE_PREDICTED_CPAS_FACTOR := by
    rw [estimatedCPAS, hdur, hbud, hgoal, hseas, JOB_QUALITY_IMPACT_FACTOR]
    ring
  have hbasepos : (0 : ℝ) < BASE_PREDICTED_CPAS_FACTOR := by
    norm_num [BASE_PREDICTED_CPAS_FACTOR, CLIENT_ACHIEVED_CPAS, RF_STATIC,
      CLIENT_TARGET_CPAS_FOR_RF, CLIENT_ACHIEVED_SPEND, CLIENT_ACHIEVED_AS,
      CLIENT_BUDGET, CLIENT_AS_GOAL_HISTORICAL]
  refine ⟨?_, ?_, ?_, ?_, hdur, hbud, hgoal, hseas, hest, ?_⟩
  · rw [abs_le]
    constructor <;>
      norm_num [CLIENT_ACHIEVED_CPAS, CLIENT_ACHIEVED_SPEND, CLIENT_ACHIEVED_AS]
  · rw [abs_le]
    constructor <;>
      norm_num [CLIENT_TARGET_CPAS_FOR_RF, CLIENT_BUDGET, CLIENT_AS_GOAL_HISTORICAL]
  · rw [abs_le]
    constructor <;>
      norm_num [RF_STATIC, CLIENT_ACHIEVED_CPAS, CLIENT_TARGET_CPAS_FOR_RF,
        CLIENT_ACHIEVED_SPEND, CLIENT_ACHIEVED_AS, CLIENT_BUDGET,
        CLIENT_AS_GOAL_HISTORICAL]
  · rw [abs_le]
    constructor <;>
      norm_num [BASE_PREDICTED_CPAS_FACTOR, CLIENT_ACHIEVED_CPAS, RF_STATIC,
        CLIENT_TARGET_CPAS_FOR_RF, CLIENT_ACHIEVED_SPEND, CLIENT_ACHIEVED_AS,
        CLIENT_BUDGET, CLIENT_AS_GOAL_HISTORICAL]
  · rw [projectedAS, if_pos (hest ▸ hbasepos), hest]
    rw [abs_le]
    constructor <;>
      norm_num [BASE_PREDICTED_CPAS_FACTOR, CLIENT_ACHIEVED_CPAS, RF_STATIC,
        CLIENT_TARGET_CPAS_FOR_RF, CLIENT_ACHIEVED_SPEND, CLIENT_ACHIEVED_AS,
        CLIENT_BUDGET, CLIENT_AS_GOAL_HISTORICAL]

namespace BudgetOptimization

set_option maxHeartbeats 1000000 in
lemma seasonality_pos (m : ℕ) : 0 < seasonality m := by
  unfold seasonality
  split_ifs <;> norm_num

lemma base_pos : (0 : ℝ) < BASE_PREDICTED_CPAS_FACTOR := by
  norm_num [BASE_PREDICTED_CPAS_FACTOR, CLIENT_ACHIEVED_CPAS, RF_STATIC,
    CLIENT_TARGET_CPAS_FOR_RF, CLIENT_ACHIEVED_SPEND, CLIENT_ACHIEVED_AS,
    CLIENT_BUDGET, CLIENT_AS_GOAL_HISTORICAL]

lemma duration_factor_pos {d : ℝ} (hd : 0 < d) : 0 < DURATION_IMPACT_FACTOR d := by
  apply Real.rpow_pos_of_pos
  exact div_pos (by norm_num [CLIENT_DURATION]) hd

lemma budget_factor_pos {b : ℝ} (hb : 0 < b) : 0 < BUDGET_SENSITIVITY_FACTOR b := by
  apply Real.rpow_pos_of_pos
  exact div_pos hb (by norm_num [CLIENT_BUDGET])

lemma goal_factor_pos {g : ℝ} (hg : 0 < g) : 0 < AS_GOAL_SENSITIVITY_FACTOR g := by
  apply Real.rpow_pos_of_pos
  exact div_pos hg (by norm_num [CLIENT_AS_GOAL_HISTORICAL])

lemma quality_factor_pos : (0 : ℝ) < JOB_QUALITY_IMPACT_FACTOR := by
  norm_num [JOB_QUALITY_IMPACT_FACTOR]

lemma estimatedCPAS_pos {b d g : ℝ} (m : ℕ) (hb : 0 < b) (hd : 0 < d)
    (hg : 0 < g) : 0 < estimatedCPAS b d g m := by
  unfold estimatedCPAS
  exact mul_pos (mul_pos (mul_pos (mul_pos (mul_pos base_pos
    (duration_factor_pos hd)) (budget_factor_pos hb)) (goal_factor_pos hg))
    quality_factor_pos) (seasonality_pos m)

lemma projectedAS_closed_form {b d g : ℝ} (m : ℕ) (hb : 0 < b) (hd : 0 < d)
    (hg : 0 < g) :
    projectedAS b d g m =
      CLIENT_BUDGET ^ GAMMA /
          (BASE_PREDICTED_CPAS_FACTOR * DURATION_IMPACT_FACTOR d *
            AS_GOAL_SENSITIVITY_FACTOR g * JOB_QUALITY_IMPACT_FACTOR *
            seasonality m) *
        b ^ (1 - GAMMA) := by
  have hB0 : (0 : ℝ) < CLIENT_BUDGET := by norm_num [CLIENT_BUDGET]
  have hest := estimatedCPAS_pos m hb hd hg
  rw [projectedAS, if_pos hest, estimatedCPAS, BUDGET_SENSITIVITY_FACTOR,
    Real.div_rpow hb.le hB0.le, Real.rpow_sub hb, Real.rpow_one]
  have h1 := base_pos.ne'
  have h2 := (duration_factor_pos hd).ne'
  have h3 := (goal_factor_pos hg).ne'
  have h4 := (seasonality_pos m).ne'
  have h5 : b ^ GAMMA ≠ 0 := (Real.rpow_pos_of_pos hb GAMMA).ne'
  have h6 : CLIENT_BUDGET ^ GAMMA ≠ 0 := (Real.rpow_pos_of_pos hB0 GAMMA).ne'
  have h7 := quality_factor_pos.ne'
  field_simp
  ring

end BudgetOptimization

open BudgetOptimization in
/-- C2: for every fixed positive duration, positive goal and start month,
the scenario formula's projected apply starts are strictly increasing in
the budget: whenever `0 < budget1 < budget2`,
`projectedAS budget1 < projectedAS budget2` (the effective exponent on
the budget is `1 - GAMMA = 0.9 > 0`). -/
theorem c2_budget_monotonicity (d g : ℝ) (m : ℕ) (b1 b2 : ℝ)
    (hd : 0 < d) (hg : 0 < g) (h1 : 0 < b1) (h12 : b1 < b2) :
    projectedAS b1 d g m < projectedAS b2 d g m := by
  rw [projectedAS_closed_form m h1 hd hg,
    projectedAS_closed_form m (h1.trans h12) hd hg]
  apply mul_lt_mul_of_pos_left
  · apply Real.rpow_lt_rpow h1.le h12
    norm_num [GAMMA]
  · apply div_pos
    · exact Real.rpow_pos_of_pos (by norm_num [CLIENT_BUDGET]) _
    · exact mul_pos (mul_pos (mul_pos (mul_pos base_pos
        (duration_factor_pos hd)) (goal_factor_pos hg)) quality_factor_pos)
        (seasonality_pos m)

open BudgetOptimization in
/-- Witness for C2: the reference scenario at budget 67416 projects
strictly fewer apply starts than at budget 80000. -/
theorem c2_budget_monotonicity_witness :
    projectedAS 67416 30 13249 6 < projectedAS 80000 30 13249 6 :=
  c2_budget_monotonicity 30 13249 6 67416 80000 (by norm_num) (by norm_num)
    (by norm_num) (by norm_num)

noncomputable section

namespace BudgetOptimization

/-- One row of the scenario comparison: the rounded scenario budget, the
rounded projected apply starts, and the displayed CPAS. -/
structure Scenario where
  budget : ℤ
  projAS : ℤ
  cpas : ℝ

/-- One scenario of `calculateScenarios`: the input budget is scaled by the
configuration multiplier and rounded, the apply-start goal falls back to 1
when zero (the `asGoal || 1` truthiness fallback), the formula produces the
estimated CPAS and the projected apply starts, and the stored record keeps
`Math.round` of the projection and `toFixed(2)` of the CPAS. -/
def mkScenario (budget numDays asGoal : ℝ) (startMonth : ℕ) (mult : ℝ) :
    Scenario :=
  let b : ℤ := jsRound (budget * mult)
  let g : ℝ := if asGoal = 0 then 1 else asGoal
  let est : ℝ := estimatedCPAS (b : ℝ) numDays g startMonth
  let pAS : ℝ := if 0 < est then (b : ℝ) / est else 0
  ⟨b, jsRound pAS, jsRound2 est⟩

/-- The Conservative configuration (budget multiplier 0.8). -/
def conservativeScenario (budget numDays asGoal : ℝ) (startMonth : ℕ) :
    Scenario := mkScenario budget numDays asGoal startMonth 0.8

/-- The Current Plan configuration (budget multiplier 1.0). -/
def currentPlanScenario (budget numDays asGoal : ℝ) (startMonth : ℕ) :
    Scenario := mkScenario budget numDays asGoal startMonth 1.0

/-- The Aggressive configuration (budget multiplier 1.25). -/
def aggressiveScenario (budget numDays asGoal : ℝ) (startMonth : ℕ) :
    Scenario := mkScenario budget numDays asGoal startMonth 1.25

/-- The three calculated scenarios, in the order of `scenarioConfigs`. -/
def calculatedScenarios (budget numDays asGoal : ℝ) (startMonth : ℕ) :
    List Scenario :=
  [conservativeScenario budget numDays asGoal startMonth,
   currentPlanScenario budget numDays asGoal startMonth,
   aggressiveScenario budget numDays asGoal startMonth]

/-- The edge-case adjustment of `calculateScenarios`: when the list has at
least two entries and the first (Conservative) projects at least as many
apply starts as the second (Current Plan), the first entry's conversions
are forced to `Math.round(currentPlan * 0.75)` and its CPAS is recomputed
as its budget over the adjusted conversions. -/
def adjustScenarios : List Scenario → List Scenario
  | c :: p :: rest =>
    if p.projAS ≤ c.projAS then
      ⟨c.budget, jsRound ((p.projAS : ℝ) * 0.75),
        (c.budget : ℝ) / ((jsRound ((p.projAS : ℝ) * 0.75)) : ℝ)⟩ :: p :: rest
    else c :: p :: rest
  | l => l

end BudgetOptimization

end

open BudgetOptimization in
/-- C3: in the three-scenario evaluation, whenever the raw Conservative
projected conversions are at least the raw Current-Plan projected
conversions, the adjusted Conservative conversions equal exactly
`round(currentPlanConversions * 0.75)` and its CPAS becomes its budget
divided by the adjusted conversions, while Current Plan and Aggressive are
untouched; otherwise all three scenarios keep their raw values. -/
theorem c3_conservative_guard (budget numDays asGoal : ℝ) (startMonth : ℕ) :
    if (currentPlanScenario budget numDays asGoal startMonth).projAS ≤
        (conservativeScenario budget numDays asGoal startMonth).projAS then
      adjustScenarios (calculatedScenarios budget numDays asGoal startMonth) =
        [{ budget := (conservativeScenario budget numDays asGoal startMonth).budget,
           projAS := jsRound
             (((currentPlanScenario budget numDays asGoal startMonth).projAS : ℝ)
               * 0.75),
           cpas := ((conservativeScenario budget numDays asGoal startMonth).budget : ℝ) /
             ((jsRound
               (((currentPlanScenario budget numDays asGoal startMonth).projAS : ℝ)
                 * 0.75)) : ℝ) },
         currentPlanScenario budget numDays asGoal startMonth,
         aggressiveScenario budget numDays asGoal startMonth]
    else
      adjustScenarios (calculatedScenarios budget numDays asGoal startMonth) =
        calculatedScenarios budget numDays asGoal startMonth := by
  by_cases h : (currentPlanScenario budget numDays asGoal startMonth).projAS ≤
      (conservativeScenario budget numDays asGoal startMonth).projAS
  · rw [if_pos h, calculatedScenarios, adjustScenarios, if_pos h]
  · rw [if_neg h, calculatedScenarios, adjustScenarios, if_neg h]

namespace CalculatorLogic

/-- One row of the reference historical dataset: whether the event date
lies in the reference month (the `startsWith('2025-06')` test), the
day-of-month of the event date (`getDate()`), the conversion count
`APPLY_START` and the spend `CDSPEND`. -/
structure Row where
  isJune : Bool
  day : ℕ
  applyStart : ℚ
  cdspend : ℚ

/-- `getJuneWeek`: the 1-based week-of-month of a day,
`floor((dayOfMonth - 1) / 7) + 1`, exactly as in the source (no
clipping). -/
def getJuneWeek (day : ℕ) : ℕ := (day - 1) / 7 + 1

/-- A row contributes to the apply-start aggregates when
`APPLY_START > 0` and its date is in the reference month. -/
def validAS (r : Row) : Bool := decide (0 < r.applyStart) && r.isJune

/-- A row contributes to the CPAS aggregates when `APPLY_START > 0`,
`CDSPEND > 0`, and its date is in the reference month. -/
def validCPAS (r : Row) : Bool :=
  decide (0 < r.applyStart) && decide (0 < r.cdspend) && r.isJune

/-- Total apply starts bucketed into week `w` (`weekApplyStarts[w]`). -/
def weekAS (rows : List Row) (w : ℕ) : ℚ :=
  ((rows.filter fun r => validAS r && decide (getJuneWeek r.day = w)).map
    fun r => r.applyStart).sum

/-- Total apply starts over the whole dataset (`totalJuneAS`). -/
def totalAS (rows : List Row) : ℚ :=
  ((rows.filter validAS).map fun r => r.applyStart).sum

/-- `weekProportions`: for weeks 1..4, the week's share of total apply
starts, with the `1/4` fallback when the week's accumulator is falsy. -/
def weekProportions (rows : List Row) : List ℚ :=
  (List.range' 1 4).map fun w =>
    if weekAS rows w ≠ 0 then weekAS rows w / totalAS rows else 1/4

/-- Spend bucketed into week `w` (`weekSums[w].spend`). -/
def weekSpendSum (rows : List Row) (w : ℕ) : ℚ :=
  ((rows.filter fun r => validCPAS r && decide (getJuneWeek r.day = w)).map
    fun r => r.cdspend).sum

/-- Apply starts bucketed into week `w` (`weekSums[w].apply`). -/
def weekApplySum (rows : List Row) (w : ℕ) : ℚ :=
  ((rows.filter fun r => validCPAS r && decide (getJuneWeek r.day = w)).map
    fun r => r.applyStart).sum

/-- Whether week `w` received any valid CPAS row (`weekSums[w]` exists). -/
def weekPresent (rows : List Row) (w : ℕ) : Bool :=
  !(rows.filter fun r => validCPAS r && decide (getJuneWeek r.day = w)).isEmpty

/-- `juneCPASByWeek[w] = weekSums[w].spend / weekSums[w].apply`. -/
def weekCPAS (rows : List Row) (w : ℕ) : ℚ :=
  weekSpendSum rows w / weekApplySum rows w

/-- The weeks whose bucket exists, in ascending key order (JavaScript
object iteration over the integer keys 1..5; June days 1–30 give week
indices at most 5). -/
def presentWeeks (rows : List Row) : List ℕ :=
  (List.range' 1 5).filter fun w => weekPresent rows w

/-- `juneAvgCPAS`: the mean of the per-week CPAS values over the weeks
that have data (computed before the fill loop). -/
def juneAvgCPAS (rows : List Row) : ℚ :=
  ((presentWeeks rows).map fun w => weekCPAS rows w).sum /
    ((presentWeeks rows).length : ℚ)

/-- `juneCPASByWeek[w]` after the fill loop: missing weeks take the
average CPAS. -/
def filledCPAS (rows : List Row) (w : ℕ) : ℚ :=
  if weekPresent rows w then weekCPAS rows w else juneAvgCPAS rows

/-- The raw weekly multipliers `juneCPASByWeek[w] / juneAvgCPAS` for weeks
1..4. -/
def weekMultipliersRaw (rows : List Row) : List ℚ :=
  (List.range' 1 4).map fun w => filledCPAS rows w / juneAvgCPAS rows

/-- `avgMultiplier`: the mean of the raw multipliers. -/
def avgMultiplier (rows : List Row) : ℚ :=
  (weekMultipliersRaw rows).sum / ((weekMultipliersRaw rows).length : ℚ)

/-- The normalized weekly multipliers: every raw multiplier divided by the
raw multipliers' own mean. -/
def weekMultipliers (rows : List Row) : List ℚ :=
  (weekMultipliersRaw rows).map fun x => x / avgMultiplier rows

/-- `minDuration = Math.max(7, campaignDays)`. -/
def minDuration (campaignDays : ℤ) : ℤ := max 7 campaignDays

/-- `rawDaysToGoal = Math.ceil(asGoal / (total_apply_starts / campaignDays))`. -/
def rawDaysToGoal (asGoal totalApplyStarts : ℚ) (campaignDays : ℤ) : ℤ :=
  ⌈asGoal / (totalApplyStarts / (campaignDays : ℚ))⌉

/-- `daysToGoal = Math.max(rawDaysToGoal, minDuration)`. -/
def daysToGoal (asGoal totalApplyStarts : ℚ) (campaignDays : ℤ) : ℤ :=
  max (rawDaysToGoal asGoal totalApplyStarts campaignDays)
    (minDuration campaignDays)

end CalculatorLogic

open CalculatorLogic in
/-- C6 counterexample: the claim says no record is ever bucketed into a
week index greater than 4, but `getJuneWeek` performs no clipping and
day-of-month 29 (a real June date) is assigned week 5. -/
theorem c6_counterexample : 4 < getJuneWeek 29 := by decide

open CalculatorLogic in
/-- C6 (amended): the week-of-month assignment computes
`week = floor((dayOfMonth - 1) / 7) + 1` with no clipping: days 1–28 land
in weeks 1–4, while days 29 and beyond are assigned week 5 or higher. -/
theorem c6_week_assignment (d : ℕ) :
    getJuneWeek d = (d - 1) / 7 + 1 ∧
    (d ≤ 28 → getJuneWeek d ≤ 4) ∧
    (29 ≤ d → 5 ≤ getJuneWeek d) := by
  refine ⟨rfl, ?_, ?_⟩ <;> (unfold getJuneWeek; omega)

open CalculatorLogic in
/-- Witness for C6 (amended) at days 14 and 29. -/
theorem c6_week_assignment_witness :
    getJuneWeek 14 ≤ 4 ∧ 5 ≤ getJuneWeek 29 :=
  ⟨(c6_week_assignment 14).2.1 (by decide), (c6_week_assignment 29).2.2 (by decide)⟩

open CalculatorLogic in
/-- C8: `daysToGoal` is `ceil(goal / (projectedApplyStarts / durationDays))`
floored to `max(7, durationDays)`, so the returned value is always at
least 7 and at least the campaign duration in days. -/
theorem c8_days_to_goal (asGoal totalApplyStarts : ℚ) (campaignDays : ℤ) :
    daysToGoal asGoal totalApplyStarts campaignDays =
      max ⌈asGoal / (totalApplyStarts / (campaignDays : ℚ))⌉
        (max 7 campaignDays) ∧
    7 ≤ daysToGoal asGoal totalApplyStarts campaignDays ∧
    campaignDays ≤ daysToGoal asGoal totalApplyStarts campaignDays := by
  refine ⟨rfl, ?_, ?_⟩
  · exact le_trans (le_max_left 7 campaignDays) (le_max_right _ _)
  · exact le_trans (le_max_right 7 campaignDays) (le_max_right _ _)

namespace CalculatorLogic

lemma totalAS_eq_week_sum (rows : List Row)
    (h : ∀ r ∈ rows, validAS r = true → getJuneWeek r.day ≤ 4) :
    totalAS rows =
      weekAS rows 1 + weekAS rows 2 + weekAS rows 3 + weekAS rows 4 := by
  induction rows with
  | nil => simp [totalAS, weekAS]
  | cons r t ih =>
    have ht : ∀ x ∈ t, validAS x = true → getJuneWeek x.day ≤ 4 :=
      fun x hx => h x (List.mem_cons_of_mem r hx)
    by_cases hv : validAS r = true
    · have hw4 : getJuneWeek r.day ≤ 4 := h r (List.mem_cons_self r t) hv
      have hw1 : 1 ≤ getJuneWeek r.day := by unfold getJuneWeek; omega
      have htot : totalAS (r :: t) = r.applyStart + totalAS t := by
        simp [totalAS, List.filter_cons, hv]
      have hweek : ∀ w, weekAS (r :: t) w =
          (if getJuneWeek r.day = w then r.applyStart else 0) + weekAS t w := by
        intro w
        by_cases hw : getJuneWeek r.day = w
        · simp [weekAS, List.filter_cons, hv, hw]
        · simp [weekAS, List.filter_cons, hv, hw]
      rw [htot, hweek 1, hweek 2, hweek 3, hweek 4, ih ht]
      set k := getJuneWeek r.day with hk
      interval_cases k <;> norm_num <;> ring
    · have hvf : validAS r = false := by
        cases hb : validAS r
        · rfl
        · exact absurd hb hv
      have htot : totalAS (r :: t) = totalAS t := by
        simp [totalAS, List.filter_cons, hvf]
      have hweek : ∀ w, weekAS (r :: t) w = weekAS t w := by
        intro w
        simp [weekAS, List.filter_cons, hvf]
      rw [htot, hweek 1, hweek 2, hweek 3, hweek 4, ih ht]

lemma weekAS_nonneg (rows : List Row) (w : ℕ) : 0 ≤ weekAS rows w := by
  apply List.sum_nonneg
  intro x hx
  obtain ⟨r, hr, hrx⟩ := List.mem_map.mp hx
  have hmem := (List.mem_filter.mp hr).2
  have : 0 < r.applyStart := by
    simp only [validAS, Bool.and_eq_true, decide_eq_true_eq] at hmem
    exact hmem.1.1
  rw [← hrx]
  exact this.le

/-- A dataset with a single valid row on June 1: week 1 takes share 1 while
weeks 2–4 each fall back to 1/4. -/
def exRowsC5 : List Row := [⟨true, 1, 1, 1⟩]

/-- A dataset with one valid row in each of the four weeks. -/
def exRowsC5w : List Row :=
  [⟨true, 1, 1, 1⟩, ⟨true, 8, 1, 1⟩, ⟨true, 15, 1, 1⟩, ⟨true, 22, 1, 1⟩]

lemma validCPAS_spec {r : Row} (h : validCPAS r = true) :
    0 < r.applyStart ∧ 0 < r.cdspend ∧ r.isJune = true := by
  simpa [validCPAS, Bool.and_eq_true, decide_eq_true_eq, and_assoc] using h

lemma weekPresent_iff {rows : List Row} {w : ℕ} :
    weekPresent rows w = true ↔
      (rows.filter fun r => validCPAS r && decide (getJuneWeek r.day = w)) ≠ [] := by
  simp [weekPresent, List.isEmpty_iff]

lemma weekApplySum_pos {rows : List Row} {w : ℕ}
    (h : weekPresent rows w = true) : 0 < weekApplySum rows w := by
  apply List.sum_pos
  · intro x hx
    obtain ⟨r, hr, hrx⟩ := List.mem_map.mp hx
    have hmem := (List.mem_filter.mp hr).2
    rw [Bool.and_eq_true] at hmem
    rw [← hrx]
    exact (validCPAS_spec hmem.1).1
  · simpa using weekPresent_iff.mp h

lemma weekSpendSum_pos {rows : List Row} {w : ℕ}
    (h : weekPresent rows w = true) : 0 < weekSpendSum rows w := by
  apply List.sum_pos
  · intro x hx
    obtain ⟨r, hr, hrx⟩ := List.mem_map.mp hx
    have hmem := (List.mem_filter.mp hr).2
    rw [Bool.and_eq_true] at hmem
    rw [← hrx]
    exact (validCPAS_spec hmem.1).2.1
  · simpa using weekPresent_iff.mp h

lemma weekCPAS_pos {rows : List Row} {w : ℕ}
    (h : weekPresent rows w = true) : 0 < weekCPAS rows w :=
  div_pos (weekSpendSum_pos h) (weekApplySum_pos h)

lemma presentWeeks_ne_nil {rows : List Row}
    (hdays : ∀ r ∈ rows, r.isJune = true → 1 ≤ r.day ∧ r.day ≤ 30)
    (hne : ∃ r ∈ rows, validCPAS r = true) : presentWeeks rows ≠ [] := by
  obtain ⟨r, hr, hv⟩ := hne
  have hspec := validCPAS_spec hv
  have hday := hdays r hr hspec.2.2
  apply List.ne_nil_of_mem (a := getJuneWeek r.day)
  apply List.mem_filter.mpr
  refine ⟨?_, ?_⟩
  · apply List.mem_range'_1.mpr
    unfold getJuneWeek
    omega
  · rw [weekPresent_iff]
    apply List.ne_nil_of_mem (a := r)
    exact List.mem_filter.mpr ⟨hr, by simp [hv]⟩

lemma juneAvgCPAS_pos {rows : List Row}
    (hdays : ∀ r ∈ rows, r.isJune = true → 1 ≤ r.day ∧ r.day ≤ 30)
    (hne : ∃ r ∈ rows, validCPAS r = true) : 0 < juneAvgCPAS rows := by
  have hnil := presentWeeks_ne_nil hdays hne
  apply div_pos
  · apply List.sum_pos
    · intro x hx
      obtain ⟨w, hw, hwx⟩ := List.mem_map.mp hx
      have hpres := (List.mem_filter.mp hw).2
      rw [← hwx]
      exact weekCPAS_pos hpres
    · simpa using hnil
  · exact_mod_cast Nat.cast_pos.mpr (List.length_pos.mpr hnil)

lemma filledCPAS_pos {rows : List Row}
    (hdays : ∀ r ∈ rows, r.isJune = true → 1 ≤ r.day ∧ r.day ≤ 30)
    (hne : ∃ r ∈ rows, validCPAS r = true) (w : ℕ) :
    0 < filledCPAS rows w := by
  unfold filledCPAS
  split
  · exact weekCPAS_pos (by assumption)
  · exact juneAvgCPAS_pos hdays hne

lemma weekMultipliersRaw_sum_pos {rows : List Row}
    (hdays : ∀ r ∈ rows, r.isJune = true → 1 ≤ r.day ∧ r.day ≤ 30)
    (hne : ∃ r ∈ rows, validCPAS r = true) :
    0 < (weekMultipliersRaw rows).sum := by
  apply List.sum_pos
  · intro x hx
    obtain ⟨w, _, hwx⟩ := List.mem_map.mp hx
    rw [← hwx]
    exact div_pos (filledCPAS_pos hdays hne w) (juneAvgCPAS_pos hdays hne)
  · simp [weekMultipliersRaw]

/-- A dataset with valid CPAS rows in weeks 1 and 3. -/
def exRowsC9 : List Row := [⟨true, 3, 2, 5⟩, ⟨true, 17, 4, 3⟩]

end CalculatorLogic

open CalculatorLogic in
/-- C5 counterexample: on a dataset whose only valid June row lies in
week 1, the four apply-start shares are 1, 1/4, 1/4 and 1/4, summing to
7/4, not 1: the per-week uniform fallback is not compensated in the
total, so the claimed normalization fails. -/
theorem c5_counterexample : (weekProportions exRowsC5).sum ≠ 1 := by
  norm_num [weekProportions, weekAS, totalAS, exRowsC5, validAS, getJuneWeek,
    List.range', List.filter_cons, List.sum_cons]

open CalculatorLogic in
/-- C5 (amended): when each of the four weeks holds at least one valid row
and no valid row is bucketed past week 4 (day-of-month at most 28), the
four week-of-month apply-start shares sum to exactly 1. -/
theorem c5_share_normalization (rows : List Row)
    (hweeks : ∀ w ∈ List.range' 1 4, weekAS rows w ≠ 0)
    (hclip : ∀ r ∈ rows, validAS r = true → getJuneWeek r.day ≤ 4) :
    (weekProportions rows).sum = 1 := by
  have hpart := totalAS_eq_week_sum rows hclip
  have h1 : weekAS rows 1 ≠ 0 := hweeks 1 (by decide)
  have h2 : weekAS rows 2 ≠ 0 := hweeks 2 (by decide)
  have h3 : weekAS rows 3 ≠ 0 := hweeks 3 (by decide)
  have h4 : weekAS rows 4 ≠ 0 := hweeks 4 (by decide)
  have hT : 0 < totalAS rows := by
    have hp1 := lt_of_le_of_ne (weekAS_nonneg rows 1) (Ne.symm h1)
    have := weekAS_nonneg rows 2
    have := weekAS_nonneg rows 3
    have := weekAS_nonneg rows 4
    rw [hpart]; linarith
  have hrange : List.range' 1 4 = [1, 2, 3, 4] := rfl
  rw [weekProportions, hrange]
  simp only [List.map_cons, List.map_nil, List.sum_cons, List.sum_nil]
  rw [if_pos h1, if_pos h2, if_pos h3, if_pos h4]
  field_simp
  linarith [hpart]

open CalculatorLogic in
/-- Witness for C5 (amended): a dataset with one valid row in each week. -/
theorem c5_share_normalization_witness : (weekProportions exRowsC5w).sum = 1 :=
  c5_share_normalization exRowsC5w
    (by
      intro w hw
      fin_cases hw <;>
        norm_num [weekAS, exRowsC5w, validAS, getJuneWeek, List.filter_cons])
    (by
      intro r hr
      fin_cases hr <;> norm_num [getJuneWeek])

open CalculatorLogic in
/-- C9: for every historical dataset with well-formed June dates and at
least one valid row, the four normalized weekly CPAS multipliers exist
and their mean is exactly 1 (hence within the claimed 1e-9). -/
theorem c9_multiplier_normalization (rows : List Row)
    (hdays : ∀ r ∈ rows, r.isJune = true → 1 ≤ r.day ∧ r.day ≤ 30)
    (hne : ∃ r ∈ rows, validCPAS r = true) :
    (weekMultipliers rows).length = 4 ∧
    (weekMultipliers rows).sum / 4 = 1 := by
  have hS := weekMultipliersRaw_sum_pos hdays hne
  have hlenraw : (weekMultipliersRaw rows).length = 4 := by
    simp [weekMultipliersRaw]
  constructor
  · simp [weekMultipliers, hlenraw]
  · have hsum : (weekMultipliers rows).sum =
        (weekMultipliersRaw rows).sum / avgMultiplier rows := by
      unfold weekMultipliers
      simp only [div_eq_mul_inv]
      rw [List.sum_map_mul_right, List.map_id']
    rw [hsum, avgMultiplier, hlenraw]
    field_simp

open CalculatorLogic in
/-- Witness for C9: a dataset with valid rows in weeks 1 and 3 only. -/
theorem c9_multiplier_normalization_witness :
    (weekMultipliers exRowsC9).length = 4 ∧
    (weekMultipliers exRowsC9).sum / 4 = 1 :=
  c9_multiplier_normalization exRowsC9
    (by
      intro r hr
      fin_cases hr <;> norm_num)
    ⟨⟨true, 3, 2, 5⟩, by simp [exRowsC9], by norm_num [validCPAS]⟩

namespace PacingAnalysis

/-- The sum of a daily series where an absent (null) day contributes 0
(the `(d.value || 0)` accumulation of `totalRawAS` / `totalRawSpend`). -/
def rawSum (series : List (Option ℚ)) : ℚ := (series.map fun o => o.getD 0).sum

/-- `scalingFactor = totalRaw > 0 ? projectedTotal / totalRaw : 1`. -/
def scalingFactor (projected : ℚ) (series : List (Option ℚ)) : ℚ :=
  if 0 < rawSum series then projected / rawSum series else 1

/-- The rescaled daily series: non-null days are multiplied by the scaling
factor, null days stay null. -/
def scaledSeries (projected : ℚ) (series : List (Option ℚ)) : List (Option ℚ) :=
  series.map fun o => o.map fun x => x * scalingFactor projected series

/-- The total of the rescaled daily series. -/
def scaledSum (projected : ℚ) (series : List (Option ℚ)) : ℚ :=
  rawSum (scaledSeries projected series)

lemma rawSum_map_mul (series : List (Option ℚ)) (c : ℚ) :
    rawSum (series.map fun o => o.map fun x => x * c) = rawSum series * c := by
  induction series with
  | nil => simp [rawSum]
  | cons o t ih =>
    have hhead : ((o.map fun x => x * c).getD 0) = o.getD 0 * c := by
      cases o <;> simp
    simp only [List.map_cons, rawSum, List.sum_cons] at ih ⊢
    rw [hhead, ih]
    ring

end PacingAnalysis

open PacingAnalysis in
/-- C7: after the pacing generator rescales the historical daily series by
`scalingFactor = projectedTotal / sum(historicalSeriesValues)`, the sum of
the scaled daily conversions equals `projectedApplyStarts` and the sum of
the scaled daily spend equals the projected total spend — exactly, hence
within the claimed 0.5% relative tolerance — for every campaign window
whose mapped historical series has positive total. -/
theorem c7_pacing_conservation (asSeries spendSeries : List (Option ℚ))
    (projectedApplyStarts projectedSpend : ℚ)
    (hAS : 0 < rawSum asSeries) (hSp : 0 < rawSum spendSeries) :
    scaledSum projectedApplyStarts asSeries = projectedApplyStarts ∧
    scaledSum projectedSpend spendSeries = projectedSpend := by
  constructor <;>
  · unfold scaledSum scaledSeries
    rw [rawSum_map_mul, scalingFactor, if_pos (by assumption)]
    field_simp

open PacingAnalysis in
/-- Witness for C7 at a conversions series with a missing day and a
one-day spend series. -/
theorem c7_pacing_conservation_witness :
    scaledSum 10 [some 2, none, some 3] = 10 ∧
    scaledSum 20 [some 5] = 20 :=
  c7_pacing_conservation [some 2, none, some 3] [some 5] 10 20
    (by norm_num [rawSum]) (by norm_num [rawSum])

namespace JobImpact

/-- JavaScript strings are embedded as their character sequences. -/
abbrev JSString := List Char

/-- JavaScript `s.toLowerCase()`. -/
def jsToLower (s : JSString) : JSString := s.map Char.toLower

/-- JavaScript `s.startsWith(pre)`. -/
def jsStartsWith (s pre : JSString) : Bool := pre.isPrefixOf s

/-- One job record with its four categorical signals: the fields
`Title Appropriate?`, `Salary Mentioned?`, `Phone Number in JD` and
`JD Formatted Correctly?`.  Missing fields are the empty string
(the `|| ''` fallback), which is just one more unrecognized value. -/
structure Job where
  title : JSString
  salary : JSString
  phone : JSString
  jd : JSString

/-- Title signal points: lowercase `startsWith('yes')` gives 1,
`startsWith('partially')` gives 0.5, anything else 0. -/
def titlePoints (s : JSString) : ℚ :=
  if jsStartsWith (jsToLower s) ['y', 'e', 's'] then 1
  else if jsStartsWith (jsToLower s) ['p', 'a', 'r', 't', 'i', 'a', 'l', 'l', 'y'] then 1/2
  else 0

/-- Salary signal points: lowercase `startsWith('yes')` gives 1, else 0. -/
def salaryPoints (s : JSString) : ℚ :=
  if jsStartsWith (jsToLower s) ['y', 'e', 's'] then 1 else 0

/-- Phone signal points: lowercase equality with `'no'` gives 1, else 0. -/
def phonePoints (s : JSString) : ℚ :=
  if jsToLower s = ['n', 'o'] then 1 else 0

/-- Description-formatting signal points: like the title signal. -/
def jdPoints (s : JSString) : ℚ :=
  if jsStartsWith (jsToLower s) ['y', 'e', 's'] then 1
  else if jsStartsWith (jsToLower s) ['p', 'a', 'r', 't', 'i', 'a', 'l', 'l', 'y'] then 1/2
  else 0

/-- The summed signal points of a job, in [0, 4]. -/
def points (j : Job) : ℚ :=
  titlePoints j.title + salaryPoints j.salary + phonePoints j.phone + jdPoints j.jd

/-- The recomputed per-job quality score `Math.round((points / 4) * 100)`. -/
def jobQualityScore (j : Job) : ℤ := jsRoundQ (points j / 4 * 100)

/-- The four what-if cards of the quality estimator, one per signal. -/
inductive Signal
  | title
  | salary
  | phone
  | jd

/-- Forcing one signal to its best value (`'Yes'`, or `'No'` for the phone
signal), as the simulation step does before recomputing the score. -/
def forceBest : Signal → Job → Job
  | Signal.title, j => { j with title := ['Y', 'e', 's'] }
  | Signal.salary, j => { j with salary := ['Y', 'e', 's'] }
  | Signal.phone, j => { j with phone := ['N', 'o'] }
  | Signal.jd, j => { j with jd := ['Y', 'e', 's'] }

lemma titlePoints_bounds (s : JSString) : 0 ≤ titlePoints s ∧ titlePoints s ≤ 1 := by
  unfold titlePoints
  split_ifs <;> norm_num

lemma salaryPoints_bounds (s : JSString) : 0 ≤ salaryPoints s ∧ salaryPoints s ≤ 1 := by
  unfold salaryPoints
  split_ifs <;> norm_num

lemma phonePoints_bounds (s : JSString) : 0 ≤ phonePoints s ∧ phonePoints s ≤ 1 := by
  unfold phonePoints
  split_ifs <;> norm_num

lemma jdPoints_bounds (s : JSString) : 0 ≤ jdPoints s ∧ jdPoints s ≤ 1 := by
  unfold jdPoints
  split_ifs <;> norm_num

lemma points_nonneg (j : Job) : 0 ≤ points j := by
  have h1 := titlePoints_bounds j.title
  have h2 := salaryPoints_bounds j.salary
  have h3 := phonePoints_bounds j.phone
  have h4 := jdPoints_bounds j.jd
  unfold points
  linarith [h1.1, h2.1, h3.1, h4.1]

lemma points_le_four (j : Job) : points j ≤ 4 := by
  have h1 := titlePoints_bounds j.title
  have h2 := salaryPoints_bounds j.salary
  have h3 := phonePoints_bounds j.phone
  have h4 := jdPoints_bounds j.jd
  unfold points
  linarith [h1.2, h2.2, h3.2, h4.2]

lemma titlePoints_yes : titlePoints ['Y', 'e', 's'] = 1 := by decide

lemma salaryPoints_yes : salaryPoints ['Y', 'e', 's'] = 1 := by decide

lemma phonePoints_no : phonePoints ['N', 'o'] = 1 := by decide

lemma jdPoints_yes : jdPoints ['Y', 'e', 's'] = 1 := by decide

lemma points_le_forceBest (j : Job) (sig : Signal) :
    points j ≤ points (forceBest sig j) := by
  cases sig
  · unfold forceBest points
    simp only
    rw [titlePoints_yes]
    linarith [(titlePoints_bounds j.title).2]
  · unfold forceBest points
    simp only
    rw [salaryPoints_yes]
    linarith [(salaryPoints_bounds j.salary).2]
  · unfold forceBest points
    simp only
    rw [phonePoints_no]
    linarith [(phonePoints_bounds j.phone).2]
  · unfold forceBest points
    simp only
    rw [jdPoints_yes]
    linarith [(jdPoints_bounds j.jd).2]

lemma jsRoundQ_mono {a b : ℚ} (h : a ≤ b) : jsRoundQ a ≤ jsRoundQ b :=
  Int.floor_le_floor (by linarith)

lemma jobQualityScore_nonneg (j : Job) : 0 ≤ jobQualityScore j := by
  unfold jobQualityScore jsRoundQ
  apply Int.le_floor.mpr
  push_cast
  have := points_nonneg j
  linarith

lemma jobQualityScore_le_100 (j : Job) : jobQualityScore j ≤ 100 := by
  have h := points_le_four j
  have hmono : jobQualityScore j ≤ jsRoundQ 100 := by
    unfold jobQualityScore
    apply jsRoundQ_mono
    linarith
  have h100 : jsRoundQ (100 : ℚ) = 100 := by
    unfold jsRoundQ
    rw [Int.floor_eq_iff]
    constructor <;> norm_num
  rw [h100] at hmono
  exact hmono

/-- The `job-impact-scenarios` response fields the what-if cards read. -/
structure Impact where
  overall_quality_score : ℚ
  cpas_current : ℚ
  cpas_if_perfect_quality : ℚ

/-- The mean simulated quality score over the jobs with one signal forced
to its best value (`/ (simulatedScores.length || 1)`). -/
def avgSimulatedQuality (jobs : List Job) (sig : Signal) : ℚ :=
  ((jobs.map fun j => ((jobQualityScore (forceBest sig j) : ℤ) : ℚ)).sum) /
    (if jobs.length = 0 then 1 else (jobs.length : ℚ))

/-- The per-card `improvedCPAS` computation.  The guard is the JavaScript
truthiness test `impact.overall_quality_score && impact.cpas_if_perfect_quality`
(nonzero), NOT a test that the score is below 100.  When the guard passes
and `100 - overall_quality_score = 0`, the JavaScript division yields a
non-finite value (Infinity or NaN) which stays non-finite through the
remaining additions and multiplications; this outcome is embedded as
`none`.  All finite outcomes are `some`. -/
def improvedCPAS (impact : Impact) (avgSim : ℚ) : Option ℚ :=
  if impact.overall_quality_score ≠ 0 ∧ impact.cpas_if_perfect_quality ≠ 0 then
    if (100 : ℚ) - impact.overall_quality_score = 0 then none
    else some (impact.cpas_current +
      (impact.cpas_if_perfect_quality - impact.cpas_current) /
        (100 - impact.overall_quality_score) *
        (avgSim - impact.overall_quality_score))
  else some impact.cpas_current

/-- An impact response with a perfect overall quality score of 100. -/
def exImpact : Impact :=
  { overall_quality_score := 100, cpas_current := 5, cpas_if_perfect_quality := 4 }

/-- A job list holding a single already-perfect job. -/
def exJobs : List Job :=
  [⟨['Y', 'e', 's'], ['Y', 'e', 's'], ['N', 'o'], ['Y', 'e', 's']⟩]

end JobImpact

open JobImpact in
/-- C4 refuted on the code: with `overall_quality_score = 100` (truthy)
and a truthy `cpas_if_perfect_quality`, the guard of the what-if
computation does NOT skip the slope division; the code divides by
`100 - 100 = 0` and produces a non-finite `improvedCPAS` (embedded as
`none`), instead of the claimed `cpas_current` (here `some 5`).  The
second conjunct records that this is exactly the degenerate score the
claim is about. -/
theorem c4_quality_degeneracy_bug :
    improvedCPAS exImpact (avgSimulatedQuality exJobs Signal.title) = none ∧
    exImpact.overall_quality_score = 100 ∧
    some exImpact.cpas_current = some (5 : ℚ) := by
  have h1 : exImpact.overall_quality_score ≠ 0 ∧
      exImpact.cpas_if_perfect_quality ≠ 0 := by norm_num [exImpact]
  have h2 : (100 : ℚ) - exImpact.overall_quality_score = 0 := by
    norm_num [exImpact]
  rw [improvedCPAS, if_pos h1, if_pos h2]
  exact ⟨rfl, by norm_num [exImpact], by norm_num [exImpact]⟩

open JobImpact in
/-- C10: for every job record and every choice of the four signal values
(arbitrary strings, including unrecognized or missing ones), the
recomputed per-job quality score of the signal simulation is an integer
between 0 and 100, and forcing any one signal to its best value never
decreases the job's score. -/
theorem c10_signal_simulation (j : Job) (sig : Signal) :
    0 ≤ jobQualityScore (forceBest sig j) ∧
    jobQualityScore (forceBest sig j) ≤ 100 ∧
    jobQualityScore j ≤ jobQualityScore (forceBest sig j) :=
  ⟨jobQualityScore_nonneg _, jobQualityScore_le_100 _,
    jsRoundQ_mono (by
      have := points_le_forceBest j sig
      linarith)⟩
